import Mathlib

/-!
Verification of the `pollination/annual-daylight-en17037` recipe.

The repository's single source file, `entry.py`, declares the DAG
`AnnualDaylightEN17037EntryPoint`: eight typed inputs, five task nodes
(`annual_metrics_en17037_process_epw`, `run_two_phase_daylight_coefficient`,
`annual_metrics_en17037_postprocess`, `create_vsf_en17037`,
`create_vsf_metrics`) and ten output routes.  The generic DAG engine
(validation, planning, output routing, parameter binding) lives in the
`pollination_dsl` package, which is not part of the source tree; those
operations are modelled here from the specification, while all graph data
(input descriptors, task parameter/source mappings, needs lists, sub_paths,
return destinations, output-route sources) is embedded directly from
`entry.py`.
-/

namespace AnnualDaylight

/-- A parameter source of a task node: a literal value, a reference to a
DAG-level input, or a reference to another task's declared output
(`other._outputs.name` in `entry.py`). -/
inductive Source
  | lit (s : String)
  | inputRef (name : String)
  | outputRef (task : String) (output : String)
deriving DecidableEq, Repr

/-- A task template: either an atomic operation (a plain task class such as
`ModelToVis`) or a composite one — a whole nested DAG with its own declared
outputs (`TwoPhaseDaylightCoefficientEntryPoint`). -/
inductive Template
  | atomic (name : String)
  | composite (name : String) (innerOutputs : List String)
deriving DecidableEq, Repr

/-- A task node of a graph: its name, template, explicit `needs` list,
parameter→source mapping, `sub_paths` entries, and the `'from' → 'to'`
destination list returned by the decorated method (output name paired with
the path, as segments, where the output is materialized in the run folder). -/
structure TaskNode where
  name : String
  template : Template
  needs : List String
  params : List (String × Source)
  subPaths : List (String × String)
  returns : List (String × List String)
deriving DecidableEq, Repr

/-- The kind of a value descriptor. -/
inductive ParamKind
  | float
  | int
  | str
  | file
  | folder
deriving DecidableEq, Repr

/-- A concrete value bound to an input descriptor: a file with an extension,
a folder, a string, a number, or an integer. -/
inductive BoundValue
  | fileSrc (ext : String)
  | folderSrc
  | strSrc (s : String)
  | numSrc (q : ℚ)
  | intSrc (n : ℤ)
deriving DecidableEq, Repr

/-- A declared DAG input (value descriptor): name, kind, allowed file
extensions (when constrained), default value (when present) and the numeric
bounds of its `spec` entry. -/
structure InputDesc where
  name : String
  kind : ParamKind
  extensions : Option (List String)
  default : Option BoundValue
  minimum : Option ℚ
  maximum : Option ℚ
deriving DecidableEq, Repr

/-- A declared DAG output route: its name and its `source` path (segments). -/
structure OutputRoute where
  name : String
  source : List String
deriving DecidableEq, Repr

/-- A DAG graph: ordered declared inputs, ordered task nodes, ordered
declared output routes. -/
structure Graph where
  inputs : List InputDesc
  tasks : List TaskNode
  routes : List OutputRoute
deriving DecidableEq, Repr

/-! ## The concrete graph data, embedded from `entry.py` -/

/-- `north` input: float, default 0, spec minimum 0 maximum 360. -/
def north : InputDesc :=
  ⟨"north", .float, none, some (.numSrc 0), some 0, some 360⟩

/-- `cpu_count` input: int, default 50, spec minimum 1. -/
def cpu_count : InputDesc :=
  ⟨"cpu_count", .int, none, some (.intSrc 50), some 1, none⟩

/-- `min_sensor_count` input: int, default 500, spec minimum 1. -/
def min_sensor_count : InputDesc :=
  ⟨"min_sensor_count", .int, none, some (.intSrc 500), some 1, none⟩

/-- `radiance_parameters` input: string with a default. -/
def radiance_parameters : InputDesc :=
  ⟨"radiance_parameters", .str, none, some (.strSrc "-ab 2 -ad 5000 -lw 2e-05"),
    none, none⟩

/-- `grid_filter` input: string with default `*`. -/
def grid_filter : InputDesc :=
  ⟨"grid_filter", .str, none, some (.strSrc "*"), none, none⟩

/-- `model` input: file with extensions json, hbjson, pkl, hbpkl, zip and no
default. -/
def model : InputDesc :=
  ⟨"model", .file, some ["json", "hbjson", "pkl", "hbpkl", "zip"], none,
    none, none⟩

/-- `epw` input: file with extension epw and no default. -/
def epw : InputDesc :=
  ⟨"epw", .file, some ["epw"], none, none, none⟩

/-- `thresholds` input: string with a default. -/
def thresholds : InputDesc :=
  ⟨"thresholds", .str, none, some (.strSrc "-t 300 -lt 100 -ut 3000"),
    none, none⟩

/-- Task `annual_metrics_en17037_process_epw`: atomic template
`AnnualDaylightEN17037ProcessEPW`, no needs, binds `epw` to the DAG input,
and returns `wea → wea.wea` and `daylight_hours → daylight_hours.csv`. -/
def annual_metrics_en17037_process_epw : TaskNode where
  name := "annual_metrics_en17037_process_epw"
  template := .atomic "AnnualDaylightEN17037ProcessEPW"
  needs := []
  params := [("epw", .inputRef "epw")]
  subPaths := []
  returns := [("wea", ["wea.wea"]), ("daylight_hours", ["daylight_hours.csv"])]

/-- Task `run_two_phase_daylight_coefficient`: composite template
`TwoPhaseDaylightCoefficientEntryPoint`, needing the EPW-processing task and
binding `wea` to that task's `wea` output.

Modelled from the spec: the nested `TwoPhaseDaylightCoefficientEntryPoint`
package is not under the source tree; per the spec the nested graph declares
the raw `results` folder as its output, which surfaces as this node's
materialized output. -/
def run_two_phase_daylight_coefficient : TaskNode where
  name := "run_two_phase_daylight_coefficient"
  template := .composite "TwoPhaseDaylightCoefficientEntryPoint" ["results"]
  needs := ["annual_metrics_en17037_process_epw"]
  params :=
    [("north", .inputRef "north"),
     ("cpu_count", .inputRef "cpu_count"),
     ("min_sensor_count", .inputRef "min_sensor_count"),
     ("radiance_parameters", .inputRef "radiance_parameters"),
     ("grid_filter", .inputRef "grid_filter"),
     ("model", .inputRef "model"),
     ("wea", .outputRef "annual_metrics_en17037_process_epw" "wea")]
  subPaths := []
  returns := []

/-- Task `annual_metrics_en17037_postprocess`: atomic template
`AnnualDaylightEN17037PostProcess`, needing the EPW-processing task and the
two-phase sub-DAG; binds `results` to the path string `results`, `schedule`
to the EPW task's `daylight_hours` output, `thresholds` to the DAG input;
returns `en17037 → en17037` and `metrics → metrics`. -/
def annual_metrics_en17037_postprocess : TaskNode where
  name := "annual_metrics_en17037_postprocess"
  template := .atomic "AnnualDaylightEN17037PostProcess"
  needs := ["annual_metrics_en17037_process_epw",
            "run_two_phase_daylight_coefficient"]
  params :=
    [("results", .lit "results"),
     ("schedule", .outputRef "annual_metrics_en17037_process_epw"
        "daylight_hours"),
     ("thresholds", .inputRef "thresholds")]
  subPaths := []
  returns := [("en17037", ["en17037"]), ("metrics", ["metrics"])]

/-- Task `create_vsf_en17037`: atomic template `ModelToVis`, needing the
postprocess task, with `sub_paths` entry `grid_data → da`; binds `grid_data`
to the path string `en17037`; returns
`output_file → visualization_en17037.vsf`. -/
def create_vsf_en17037 : TaskNode where
  name := "create_vsf_en17037"
  template := .atomic "ModelToVis"
  needs := ["annual_metrics_en17037_postprocess"]
  params :=
    [("model", .inputRef "model"),
     ("grid_data", .lit "en17037"),
     ("active_grid_data", .lit "target_illuminance_300"),
     ("output_format", .lit "vsf")]
  subPaths := [("grid_data", "da")]
  returns := [("output_file", ["visualization_en17037.vsf"])]

/-- Task `create_vsf_metrics`: atomic template `ModelToVis`, needing the
postprocess task, with no `sub_paths`; binds `grid_data` to the path string
`metrics`; returns `output_file → visualization_metrics.vsf`. -/
def create_vsf_metrics : TaskNode where
  name := "create_vsf_metrics"
  template := .atomic "ModelToVis"
  needs := ["annual_metrics_en17037_postprocess"]
  params :=
    [("model", .inputRef "model"),
     ("grid_data", .lit "metrics"),
     ("active_grid_data", .lit "udi"),
     ("output_format", .lit "vsf")]
  subPaths := []
  returns := [("output_file", ["visualization_metrics.vsf"])]

/-- Output route `visualization_en17037`, source `visualization_en17037.vsf`. -/
def visualization_en17037 : OutputRoute :=
  ⟨"visualization_en17037", ["visualization_en17037.vsf"]⟩

/-- Output route `visualization_metrics`, source `visualization_metrics.vsf`. -/
def visualization_metrics : OutputRoute :=
  ⟨"visualization_metrics", ["visualization_metrics.vsf"]⟩

/-- Output route `results`, source `results`. -/
def results : OutputRoute := ⟨"results", ["results"]⟩

/-- Output route `en17037`, source `en17037`. -/
def en17037 : OutputRoute := ⟨"en17037", ["en17037"]⟩

/-- Output route `metrics`, source `metrics`. -/
def metrics : OutputRoute := ⟨"metrics", ["metrics"]⟩

/-- Output route `da`, source `metrics/da`. -/
def da : OutputRoute := ⟨"da", ["metrics", "da"]⟩

/-- Output route `cda`, source `metrics/cda`. -/
def cda : OutputRoute := ⟨"cda", ["metrics", "cda"]⟩

/-- Output route `udi`, source `metrics/udi`. -/
def udi : OutputRoute := ⟨"udi", ["metrics", "udi"]⟩

/-- Output route `udi_lower`, source `metrics/udi_lower`. -/
def udi_lower : OutputRoute := ⟨"udi_lower", ["metrics", "udi_lower"]⟩

/-- Output route `udi_upper`, source `metrics/udi_upper`. -/
def udi_upper : OutputRoute := ⟨"udi_upper", ["metrics", "udi_upper"]⟩

/-- The `AnnualDaylightEN17037EntryPoint` DAG graph, embedded from
`entry.py` in declaration order. -/
def AnnualDaylightEN17037EntryPoint : Graph where
  inputs := [north, cpu_count, min_sensor_count, radiance_parameters,
             grid_filter, model, epw, thresholds]
  tasks := [annual_metrics_en17037_process_epw,
            run_two_phase_daylight_coefficient,
            annual_metrics_en17037_postprocess,
            create_vsf_en17037,
            create_vsf_metrics]
  routes := [visualization_en17037, visualization_metrics, results, en17037,
             metrics, da, cda, udi, udi_lower, udi_upper]

/-- Short name for the embedded graph. -/
def G : Graph := AnnualDaylightEN17037EntryPoint

/-! ## The DAG engine, modelled from the spec -/

/-- Modelled from the spec: the materialized outputs of a task node, each an
output name paired with the path where it lands in the run folder.  For an
atomic template these are the `'from' → 'to'` pairs of the decorated method;
for a composite template (a nested DAG) the inner graph's declared outputs
surface as the node's outputs, each materialized at the path named by the
inner output. -/
def matOutputs (t : TaskNode) : List (String × List String) :=
  match t.template with
  | .atomic _ => t.returns
  | .composite _ innerOuts => innerOuts.map (fun o => (o, [o]))

/-- Modelled from the spec: whether a parameter source references an output
of task `b` — either an explicit `_outputs` reference, or a plain path
string that names a location where `b` materializes an output (the form
`entry.py` uses to address a sub-DAG's folder, e.g. `results='results'`). -/
def refersTo (b : TaskNode) (s : Source) : Bool :=
  match s with
  | .lit v => (matOutputs b).any (fun o => o.2 == [v])
  | .inputRef _ => false
  | .outputRef tn o => tn == b.name && (matOutputs b).any (fun pr => pr.1 == o)

/-- Modelled from the spec: the inferred dependency — task `a` references an
output of a distinct task `b` through some parameter source. -/
def refBool (a b : TaskNode) : Bool :=
  a.name != b.name && a.params.any (fun p => refersTo b p.2)

/-- Modelled from the spec: the inferred dependency-edge set of a graph, one
pair `(b.name, a.name)` for every task `a` referencing an output of `b`. -/
def inferredEdges (g : Graph) : List (String × String) :=
  (g.tasks.map (fun a =>
    (g.tasks.filter (fun b => refBool a b)).map (fun b => (b.name, a.name)))).flatten

/-- The dependency-edge set declared by the explicit `needs` lists, one pair
`(b, a.name)` for every `b` in `a.needs`. -/
def needsEdges (g : Graph) : List (String × String) :=
  (g.tasks.map (fun a => a.needs.map (fun b => (b, a.name)))).flatten

/-- Modelled from the spec (Kahn-style layering): a task of the remaining
set is ready when it references no output of a distinct remaining task. -/
def readyPred (rem : List TaskNode) (t : TaskNode) : Bool :=
  rem.all (fun u => u.name == t.name || ! refBool t u)

/-- Modelled from the spec: one Kahn iteration per unit of fuel — the ready
tasks of the remaining set form the next stage; an empty ready set with
tasks remaining signals a cycle (`none`). -/
def planAux : Nat → List TaskNode → Option (List (List TaskNode))
  | _, [] => some []
  | 0, _ :: _ => none
  | fuel + 1, rem =>
    let ready := rem.filter (readyPred rem)
    if ready.isEmpty then none
    else (planAux fuel (rem.filter (fun t => ! readyPred rem t))).map
      (fun st => ready :: st)

/-- Modelled from the spec: topological layering of a graph's task nodes
into stages; `none` signals a cycle. -/
def plan (g : Graph) : Option (List (List TaskNode)) :=
  planAux g.tasks.length g.tasks

/-- Acyclicity, phrased as the planner needs it: every nonempty sublist of
the graph's tasks contains a ready task. -/
def AcyclicB (g : Graph) : Bool :=
  g.tasks.sublists.all (fun rem => rem.isEmpty || rem.any (readyPred rem))

/-- The index of the first stage containing a task of the given name. -/
def stageIdxOf (st : List (List TaskNode)) (n : String) : Option Nat :=
  match st with
  | [] => none
  | s :: rest =>
    if s.any (fun t => t.name == n) then some 0
    else (stageIdxOf rest n).map (fun i => i + 1)

/-- The stages the planner produces for the embedded graph. -/
def planStages : List (List TaskNode) :=
  [[annual_metrics_en17037_process_epw],
   [run_two_phase_daylight_coefficient],
   [annual_metrics_en17037_postprocess],
   [create_vsf_en17037, create_vsf_metrics]]

/-- Modelled from the spec (Output Router): the task owning a route source —
the first task materializing an output at the head of the source path. -/
def ownerOf (g : Graph) (src : List String) : Option TaskNode :=
  match src with
  | [] => none
  | h :: _ => g.tasks.find? (fun t => (matOutputs t).any (fun o => o.2 == [h]))

/-- Modelled from the spec (Output Router): pure path algebra — a route
whose source path starts at a materialized output of a task that completed
successfully resolves to that source path under the run root; otherwise the
route is unavailable (`none`). -/
def resolveRoute (g : Graph) (ok : List String) (src : List String) :
    Option (List String) :=
  match ownerOf g src with
  | none => none
  | some t => if ok.contains t.name then some src else none

/-- The distinct tasks whose outputs a task references. -/
def depTasks (g : Graph) (t : TaskNode) : List TaskNode :=
  g.tasks.filter (fun u => refBool t u)

/-- Modelled from the spec (fail-fast staged execution): the names of the
tasks that complete successfully when the tasks named in `failed` fail — a
task succeeds when it is not failed and every task it references succeeded. -/
def succeededTasks (g : Graph) (failed : List String) : List String :=
  g.tasks.foldl
    (fun acc t =>
      if failed.contains t.name then acc
      else if (depTasks g t).all (fun b => acc.contains b.name) then
        acc ++ [t.name]
      else acc)
    []

/-- Bounded reachability along inferred dependency edges: task `a`
references, in one or more steps, a task named `bn`. -/
def reachB (g : Graph) : Nat → TaskNode → String → Bool
  | 0, _, _ => false
  | fuel + 1, a, bn =>
    g.tasks.any (fun c => refBool a c && (c.name == bn || reachB g fuel c bn))

/-- Task `a` is the task named `bn`, or transitively depends on it
(reflexive-transitive closure of the inferred dependency edges). -/
def dependsOnB (g : Graph) (a : TaskNode) (bn : String) : Bool :=
  a.name == bn || reachB g g.tasks.length a bn

/-- A route source is unaffected by the failure of the task named `fn`: it
has an owner and that owner neither is nor transitively depends on `fn`. -/
def routeUnaffected (g : Graph) (fn : String) (src : List String) : Bool :=
  match ownerOf g src with
  | none => false
  | some t => ! dependsOnB g t fn

/-- Modelled from the spec (validation check f): whether a bound value
respects the descriptor's kind, extension and numeric-range constraints — a
file descriptor fed a folder is an error, a file extension must be among the
allowed ones, numbers must lie within the `spec` bounds. -/
def checkBinding (d : InputDesc) (v : BoundValue) : Bool :=
  match d.kind, v with
  | .file, .fileSrc e =>
    match d.extensions with
    | none => true
    | some exts => exts.contains e
  | .folder, .folderSrc => true
  | .str, .strSrc _ => true
  | .float, .numSrc q =>
    (match d.minimum with | none => true | some m => decide (m ≤ q)) &&
    (match d.maximum with | none => true | some m => decide (q ≤ m))
  | .int, .intSrc n =>
    (match d.minimum with | none => true | some m => decide (m ≤ (n : ℚ))) &&
    (match d.maximum with | none => true | some m => decide ((n : ℚ) ≤ m))
  | _, _ => false

/-- The value a descriptor takes under a run context: the bound value when
one is given, the declared default otherwise. -/
def boundOrDefault (bindings : List (String × BoundValue)) (d : InputDesc) :
    Option BoundValue :=
  match bindings.find? (fun b => b.1 == d.name) with
  | some b => some b.2
  | none => d.default

/-- Modelled from the spec: definition-time validation of a run context —
every declared input must obtain a value (bound or default) and every
obtained value must pass the descriptor's constraint check. -/
def validateBindings (g : Graph) (bindings : List (String × BoundValue)) :
    Bool :=
  g.inputs.all (fun d =>
    match boundOrDefault bindings d with
    | none => false
    | some v => checkBinding d v)

/-- Modelled from the spec: the path location a parameter source denotes — a
plain path string denotes that location under the run root, an explicit
output reference denotes the referenced task's materialized output path, and
a DAG-input reference carries no path. -/
def sourceLocation (g : Graph) (s : Source) : Option (List String) :=
  match s with
  | .lit v => some [v]
  | .inputRef _ => none
  | .outputRef tn o =>
    match g.tasks.find? (fun t => t.name == tn) with
    | none => none
    | some t => ((matOutputs t).find? (fun pr => pr.1 == o)).map (fun pr => pr.2)

/-- Modelled from the spec (parameter binding with `sub_paths` narrowing):
the bound path of a task parameter is its source location, joined with the
task's `sub_paths` entry for that parameter when one is declared. -/
def bindParam (g : Graph) (t : TaskNode) (p : String) : Option (List String) :=
  match t.params.find? (fun pr => pr.1 == p) with
  | none => none
  | some pr =>
    match sourceLocation g pr.2 with
    | none => none
    | some base =>
      match t.subPaths.find? (fun sp => sp.1 == p) with
      | none => some base
      | some sp => some (base ++ [sp.2])

/-! ## General planner lemmas -/

/-- Removing the elements satisfying `p` strictly shrinks a list that
contains an element satisfying `p`. -/
theorem length_filter_not_lt {α : Type} (p : α → Bool) (l : List α) (x : α)
    (hx : x ∈ l) (hpx : p x = true) :
    (l.filter (fun a => ! p a)).length < l.length := by
  induction l with
  | nil => cases hx
  | cons h t ih =>
    rcases List.mem_cons.mp hx with rfl | hxt
    · rw [List.filter_cons, hpx]
      simpa using Nat.lt_succ_of_le (List.length_filter_le _ t)
    · by_cases hp : p h = true
      · rw [List.filter_cons, hp]
        simpa using Nat.lt_succ_of_le (List.length_filter_le _ t)
      · rw [List.filter_cons, Bool.not_eq_true] at *
        rw [hp]
        simpa using Nat.succ_lt_succ (ih hxt)

/-- The stages the planner emits are jointly a permutation of the tasks it
was given. -/
theorem planAux_perm (fuel : Nat) :
    ∀ rem st, planAux fuel rem = some st → st.flatten.Perm rem := by
  induction fuel with
  | zero =>
    intro rem st h
    cases rem with
    | nil =>
      simp only [planAux, Option.some.injEq] at h
      subst h; simp
    | cons a t => simp [planAux] at h
  | succ fuel ih =>
    intro rem st h
    cases rem with
    | nil =>
      simp only [planAux, Option.some.injEq] at h
      subst h; simp
    | cons a t =>
      simp only [planAux] at h
      split at h
      · simp at h
      · obtain ⟨st', hst', hstc⟩ := Option.map_eq_some'.mp h
        subst hstc
        have hperm := List.filter_append_perm (readyPred (a :: t)) (a :: t)
        have hstep :
            ((a :: t).filter (readyPred (a :: t)) ++ st'.flatten).Perm
              ((a :: t).filter (readyPred (a :: t)) ++
                (a :: t).filter (fun x => ! readyPred (a :: t) x)) :=
          List.Perm.append_left _ (ih _ _ hst')
        rw [List.flatten_cons]
        exact hstep.trans hperm

/-- On an acyclic graph the planner never reports a cycle: with enough fuel,
every sublist of the graph's tasks is fully layered. -/
theorem planAux_total (g : Graph) (hg : AcyclicB g = true) :
    ∀ fuel rem, rem.Sublist g.tasks → rem.length ≤ fuel →
      ∃ st, planAux fuel rem = some st := by
  intro fuel
  induction fuel with
  | zero =>
    intro rem hsub hlen
    have hnil : rem = [] := List.eq_nil_of_length_eq_zero (Nat.le_zero.mp hlen)
    subst hnil
    exact ⟨[], rfl⟩
  | succ fuel ih =>
    intro rem hsub hlen
    cases rem with
    | nil => exact ⟨[], rfl⟩
    | cons a t =>
      have hmem : (a :: t) ∈ g.tasks.sublists := List.mem_sublists.mpr hsub
      have hany : (a :: t).any (readyPred (a :: t)) = true := by
        have hall := List.all_eq_true.mp hg (a :: t) hmem
        simpa using hall
      obtain ⟨x, hx, hpx⟩ := List.any_eq_true.mp hany
      have hne : ¬ ((a :: t).filter (readyPred (a :: t))).isEmpty = true := by
        intro hcon
        rw [List.isEmpty_iff] at hcon
        have hxin : x ∈ (a :: t).filter (readyPred (a :: t)) :=
          List.mem_filter.mpr ⟨hx, hpx⟩
        rw [hcon] at hxin
        cases hxin
      have hrsub :
          ((a :: t).filter (fun u => ! readyPred (a :: t) u)).Sublist g.tasks :=
        (List.filter_sublist _).trans hsub
      have hrlen :
          ((a :: t).filter (fun u => ! readyPred (a :: t) u)).length ≤ fuel := by
        have hlt := length_filter_not_lt (readyPred (a :: t)) (a :: t) x hx hpx
        simp only [List.length_cons] at hlt hlen ⊢
        omega
      obtain ⟨st', hst'⟩ := ih _ hrsub hrlen
      refine ⟨(a :: t).filter (readyPred (a :: t)) :: st', ?_⟩
      simp only [planAux]
      rw [if_neg hne, hst']
      rfl

/-- Every stage the planner emits is a sublist — hence in the relative
order — of the task list it was given. -/
theorem planAux_stages_sublist (fuel : Nat) :
    ∀ rem st, planAux fuel rem = some st → ∀ s ∈ st, s.Sublist rem := by
  induction fuel with
  | zero =>
    intro rem st h s hs
    cases rem with
    | nil =>
      simp only [planAux, Option.some.injEq] at h
      subst h; cases hs
    | cons a t => simp [planAux] at h
  | succ fuel ih =>
    intro rem st h s hs
    cases rem with
    | nil =>
      simp only [planAux, Option.some.injEq] at h
      subst h; cases hs
    | cons a t =>
      simp only [planAux] at h
      split at h
      · simp at h
      · obtain ⟨st', hst', hstc⟩ := Option.map_eq_some'.mp h
        subst hstc
        rcases List.mem_cons.mp hs with rfl | hs'
        · exact List.filter_sublist _
        · exact ((ih _ _ hst' s hs').trans (List.filter_sublist _))

/-- A task appearing in some stage has a stage index. -/
theorem stageIdx_of_mem (st : List (List TaskNode)) (t : TaskNode)
    (h : t ∈ st.flatten) : ∃ i, stageIdxOf st t.name = some i := by
  induction st with
  | nil => simp at h
  | cons s rest ih =>
    by_cases hs : s.any (fun u => u.name == t.name) = true
    · exact ⟨0, by simp [stageIdxOf, hs]⟩
    · have ht : t ∈ rest.flatten := by
        rw [List.flatten_cons] at h
        rcases List.mem_append.mp h with h1 | h2
        · exact absurd (List.any_eq_true.mpr ⟨t, h1, by simp⟩) hs
        · exact h2
      obtain ⟨i, hi⟩ := ih ht
      exact ⟨i + 1, by simp [stageIdxOf, hs, hi]⟩

/-- When task names are distinct, a task kept for later stages shares no
name with a task of the ready stage. -/
theorem not_name_in_filter (rem : List TaskNode) (p : TaskNode → Bool)
    (hn : (rem.map TaskNode.name).Nodup) (a : TaskNode)
    (ha : a ∈ rem.filter (fun u => ! p u)) :
    (rem.filter p).any (fun u => u.name == a.name) = false := by
  cases hany : (rem.filter p).any (fun u => u.name == a.name) with
  | false => rfl
  | true =>
    obtain ⟨u, hu, hname⟩ := List.any_eq_true.mp hany
    have hua : u = a :=
      List.inj_on_of_nodup_map hn (List.mem_of_mem_filter hu)
        (List.mem_of_mem_filter ha) (eq_of_beq hname)
    subst hua
    have h1 : p u = true := by simpa using List.of_mem_filter hu
    have h2 : (! p u) = true := by simpa using List.of_mem_filter ha
    rw [h1] at h2
    simp at h2

/-- Core ordering invariant of the layering: a task referencing another
distinct task's output lands in a strictly later stage. -/
theorem planAux_order (fuel : Nat) :
    ∀ rem st, planAux fuel rem = some st →
      (rem.map TaskNode.name).Nodup →
      ∀ a b, a ∈ rem → b ∈ rem → refBool a b = true →
      ∃ i j, stageIdxOf st a.name = some i ∧ stageIdxOf st b.name = some j ∧
        j < i := by
  induction fuel with
  | zero =>
    intro rem st h _ a b ha _ _
    cases rem with
    | nil => cases ha
    | cons x t => simp [planAux] at h
  | succ fuel ih =>
    intro rem st h hn a b ha hb href
    cases rem with
    | nil => cases ha
    | cons x t =>
      simp only [planAux] at h
      split at h
      · simp at h
      · obtain ⟨st', hst', hstc⟩ := Option.map_eq_some'.mp h
        subst hstc
        have hanb : (a.name != b.name) = true := by
          have h' := href
          simp only [refBool, Bool.and_eq_true] at h'
          exact h'.1
        have hnra : readyPred (x :: t) a = false := by
          cases hall : readyPred (x :: t) a with
          | false => rfl
          | true =>
            have hbcase := List.all_eq_true.mp hall b hb
            have hbna : (b.name == a.name) = false := by
              cases hcase : b.name == a.name with
              | false => rfl
              | true =>
                have : a.name = b.name := (eq_of_beq hcase).symm
                rw [this] at hanb
                simp at hanb
            rw [hbna, href] at hbcase
            cases hbcase
        have haf : a ∈ (x :: t).filter (fun u => ! readyPred (x :: t) u) :=
          List.mem_filter.mpr ⟨ha, by rw [hnra]; rfl⟩
        have hnrest :
            (((x :: t).filter (fun u => ! readyPred (x :: t) u)).map
              TaskNode.name).Nodup :=
          hn.sublist ((List.filter_sublist _).map TaskNode.name)
        have hreadyA :
            ((x :: t).filter (readyPred (x :: t))).any
              (fun u => u.name == a.name) = false :=
          not_name_in_filter (x :: t) (readyPred (x :: t)) hn a haf
        by_cases hrb : readyPred (x :: t) b = true
        · have hbf : b ∈ (x :: t).filter (readyPred (x :: t)) :=
            List.mem_filter.mpr ⟨hb, hrb⟩
          have hbany :
              ((x :: t).filter (readyPred (x :: t))).any
                (fun u => u.name == b.name) = true :=
            List.any_eq_true.mpr ⟨b, hbf, by simp⟩
          have hb0 :
              stageIdxOf ((x :: t).filter (readyPred (x :: t)) :: st') b.name =
                some 0 := by
            simp [stageIdxOf, hbany]
          have haflat : a ∈ st'.flatten :=
            (planAux_perm fuel _ st' hst').mem_iff.mpr haf
          obtain ⟨i', hi'⟩ := stageIdx_of_mem st' a haflat
          exact ⟨i' + 1, 0, by simp [stageIdxOf, hreadyA, hi'], hb0,
            Nat.succ_pos _⟩
        · have hbf : b ∈ (x :: t).filter (fun u => ! readyPred (x :: t) u) :=
            List.mem_filter.mpr ⟨hb, by
              rw [Bool.not_eq_true] at hrb
              rw [hrb]; rfl⟩
          obtain ⟨i', j', hi', hj', hlt⟩ :=
            ih _ st' hst' hnrest a b haf hbf href
          have hreadyB :
              ((x :: t).filter (readyPred (x :: t))).any
                (fun u => u.name == b.name) = false :=
            not_name_in_filter (x :: t) (readyPred (x :: t)) hn b hbf
          exact ⟨i' + 1, j' + 1, by simp [stageIdxOf, hreadyA, hi'],
            by simp [stageIdxOf, hreadyB, hj'], Nat.succ_lt_succ hlt⟩

/-! ## Claim theorems -/

/-- C1: for every acyclic graph — in particular the
`AnnualDaylightEN17037EntryPoint` graph with its five task nodes — `plan`
terminates with a stage sequence whose union is exactly the graph's task
set, each node appearing in exactly one stage. -/
theorem plan_covers_tasks (g : Graph) (h : AcyclicB g = true) :
    ∃ st, plan g = some st ∧ st.flatten.Perm g.tasks ∧
      ∀ t ∈ g.tasks, st.flatten.count t = g.tasks.count t := by
  obtain ⟨st, hst⟩ :=
    planAux_total g h g.tasks.length g.tasks (List.Sublist.refl _)
      (Nat.le_refl _)
  exact ⟨st, hst, planAux_perm _ _ _ hst,
    fun t _ => (planAux_perm _ _ _ hst).count_eq t⟩

/-- Witness for C1 at the embedded graph. -/
theorem plan_covers_tasks_witness :
    AcyclicB AnnualDaylightEN17037EntryPoint = true ∧
    ∃ st, plan AnnualDaylightEN17037EntryPoint = some st ∧
      st.flatten.Perm AnnualDaylightEN17037EntryPoint.tasks ∧
      ∀ t ∈ AnnualDaylightEN17037EntryPoint.tasks,
        st.flatten.count t = AnnualDaylightEN17037EntryPoint.tasks.count t :=
  ⟨by decide, plan_covers_tasks AnnualDaylightEN17037EntryPoint (by decide)⟩

/-- C2: in every plan, a task node referencing an output of another task
node is placed in a strictly later stage than the node it references. -/
theorem referencing_node_in_later_stage (g : Graph)
    (st : List (List TaskNode)) (h : plan g = some st)
    (hn : (g.tasks.map TaskNode.name).Nodup) (a b : TaskNode)
    (ha : a ∈ g.tasks) (hb : b ∈ g.tasks) (href : refBool a b = true) :
    ∃ i j, stageIdxOf st a.name = some i ∧ stageIdxOf st b.name = some j ∧
      j < i :=
  planAux_order g.tasks.length g.tasks st h hn a b ha hb href

/-- Witness for C2: `run_two_phase_daylight_coefficient` (which references
`annual_metrics_en17037_process_epw._outputs.wea`) and
`annual_metrics_en17037_postprocess` (which references
`annual_metrics_en17037_process_epw._outputs.daylight_hours`) run in
strictly later stages than the EPW-processing node. -/
theorem referencing_node_in_later_stage_witness :
    (∃ i j,
      stageIdxOf planStages run_two_phase_daylight_coefficient.name = some i ∧
      stageIdxOf planStages annual_metrics_en17037_process_epw.name = some j ∧
      j < i) ∧
    (∃ i j,
      stageIdxOf planStages annual_metrics_en17037_postprocess.name = some i ∧
      stageIdxOf planStages annual_metrics_en17037_process_epw.name = some j ∧
      j < i) :=
  ⟨referencing_node_in_later_stage G planStages (by decide) (by decide)
      run_two_phase_daylight_coefficient annual_metrics_en17037_process_epw
      (by decide) (by decide) (by decide),
   referencing_node_in_later_stage G planStages (by decide) (by decide)
      annual_metrics_en17037_postprocess annual_metrics_en17037_process_epw
      (by decide) (by decide) (by decide)⟩

/-- C3: dependency edges are derived from parameter sources, never declared
directly — for every task of the embedded graph, each entry of its `needs`
list is matched by a parameter source referencing an output of that task,
and the edge set inferred from the parameter→source mappings coincides with
the edge set given by the explicit `needs` lists. -/
theorem edges_inferred_from_sources :
    inferredEdges G = needsEdges G ∧
    ∀ a ∈ G.tasks, ∀ bn ∈ a.needs,
      ∃ b ∈ G.tasks, b.name = bn ∧
        a.params.any (fun p => refersTo b p.2) = true := by
  exact ⟨by decide, by decide⟩

/-- Witness for C3: the `needs` entry `run_two_phase_daylight_coefficient`
of `annual_metrics_en17037_postprocess` is matched by the parameter source
`results` referencing the sub-DAG's surfaced results folder. -/
theorem edges_inferred_from_sources_witness :
    ∃ b ∈ G.tasks, b.name = "run_two_phase_daylight_coefficient" ∧
      annual_metrics_en17037_postprocess.params.any
        (fun p => refersTo b p.2) = true :=
  edges_inferred_from_sources.2 annual_metrics_en17037_postprocess (by decide)
    "run_two_phase_daylight_coefficient" (by decide)

/-- C4: the composite node `run_two_phase_daylight_coefficient` returns no
destinations of its own, yet surfaces the nested
`TwoPhaseDaylightCoefficientEntryPoint` graph's declared `results` folder as
its materialized output; the DAG-level `results` route (source `results`)
resolves to that surfaced folder, and the downstream node
`annual_metrics_en17037_postprocess` addresses it exactly as a task output. -/
theorem nested_outputs_surface :
    run_two_phase_daylight_coefficient.returns = [] ∧
    matOutputs run_two_phase_daylight_coefficient =
      [("results", ["results"])] ∧
    ownerOf G results.source = some run_two_phase_daylight_coefficient ∧
    resolveRoute G (succeededTasks G []) results.source = some ["results"] ∧
    refBool annual_metrics_en17037_postprocess
      run_two_phase_daylight_coefficient = true := by
  decide

/-- C5: planning is deterministic — every stage of every plan lists its
nodes in declaration order (it is a sublist of the graph's task list),
re-planning the same definition yields the same stages, and the embedded
graph always plans to the same four stages, with `create_vsf_en17037`
before `create_vsf_metrics` in the shared final stage. -/
theorem plan_deterministic_ordered :
    (∀ g st, plan g = some st → ∀ s ∈ st, s.Sublist g.tasks) ∧
    (∀ g : Graph, plan g = plan g) ∧
    plan G = some planStages := by
  refine ⟨?_, fun _ => rfl, by decide⟩
  intro g st h s hs
  exact planAux_stages_sublist g.tasks.length g.tasks st h s hs

/-- Witness for C5: the final stage `[create_vsf_en17037,
create_vsf_metrics]` of the embedded plan is in declaration order. -/
theorem plan_deterministic_ordered_witness :
    ([create_vsf_en17037, create_vsf_metrics] : List TaskNode).Sublist
      G.tasks :=
  plan_deterministic_ordered.1 G planStages (by decide)
    [create_vsf_en17037, create_vsf_metrics] (by decide)

/-- C6: output routing is pure path algebra with many-to-one aliasing — the
routes `metrics`, `da`, `cda`, `udi`, `udi_lower` and `udi_upper` all
resolve into `annual_metrics_en17037_postprocess`'s single `metrics` output,
and each sub-route resolves to the resolution of `metrics` joined with its
sub-path. -/
theorem output_aliasing :
    (∀ r ∈ [metrics, da, cda, udi, udi_lower, udi_upper],
      ownerOf G r.source = some annual_metrics_en17037_postprocess ∧
      r.source.head? = some "metrics") ∧
    resolveRoute G (succeededTasks G []) metrics.source = some ["metrics"] ∧
    (∀ sub ∈ ["da", "cda", "udi", "udi_lower", "udi_upper"],
      resolveRoute G (succeededTasks G []) (metrics.source ++ [sub]) =
        (resolveRoute G (succeededTasks G []) metrics.source).map
          (fun p => p ++ [sub])) ∧
    resolveRoute G (succeededTasks G []) da.source =
      (resolveRoute G (succeededTasks G []) metrics.source).map
        (fun p => p ++ ["da"]) := by
  exact ⟨by decide, by decide, by decide, by decide⟩

/-- Witness for C6 at the `da` route and its sub-path. -/
theorem output_aliasing_witness :
    (ownerOf G da.source = some annual_metrics_en17037_postprocess ∧
      da.source.head? = some "metrics") ∧
    resolveRoute G (succeededTasks G []) (metrics.source ++ ["da"]) =
      (resolveRoute G (succeededTasks G []) metrics.source).map
        (fun p => p ++ ["da"]) :=
  ⟨output_aliasing.1 da (by decide),
   output_aliasing.2.2.1 "da" (by decide)⟩

/-- C7: after a fully successful execution every declared route resolves;
after an execution in which one task failed, a route resolves exactly when
its owner has no (reflexive-transitive) dependency on the failed node — in
particular, when `run_two_phase_daylight_coefficient` fails, no route of
this graph resolves. -/
theorem routes_after_execution :
    (∀ r ∈ G.routes,
      (resolveRoute G (succeededTasks G []) r.source).isSome = true) ∧
    (∀ fn ∈ G.tasks.map TaskNode.name, ∀ r ∈ G.routes,
      ((resolveRoute G (succeededTasks G [fn]) r.source).isSome = true ↔
        routeUnaffected G fn r.source = true)) ∧
    (∀ r ∈ G.routes,
      resolveRoute G
        (succeededTasks G ["run_two_phase_daylight_coefficient"]) r.source =
        none) := by
  exact ⟨by decide, by decide, by decide⟩

/-- Witness for C7 at the `metrics` route: it resolves after full success,
and is unavailable exactly as `routeUnaffected` says when
`run_two_phase_daylight_coefficient` fails. -/
theorem routes_after_execution_witness :
    (resolveRoute G (succeededTasks G []) metrics.source).isSome = true ∧
    ((resolveRoute G
        (succeededTasks G ["run_two_phase_daylight_coefficient"])
        metrics.source).isSome = true ↔
      routeUnaffected G "run_two_phase_daylight_coefficient" metrics.source =
        true) ∧
    resolveRoute G (succeededTasks G ["run_two_phase_daylight_coefficient"])
      metrics.source = none :=
  ⟨routes_after_execution.1 metrics (by decide),
   routes_after_execution.2.1 "run_two_phase_daylight_coefficient" (by decide)
     metrics (by decide),
   routes_after_execution.2.2 metrics (by decide)⟩

/-- C8: definition-time validation of value-descriptor constraints — a
source that is not an `epw` file violates the `epw` input, a file whose
extension is not among json, hbjson, pkl, hbpkl, zip violates the `model`
input, and a folder source fed to either file descriptor is an error, while
conforming files validate. -/
theorem extension_validation :
    checkBinding epw (.fileSrc "txt") = false ∧
    checkBinding epw .folderSrc = false ∧
    checkBinding model .folderSrc = false ∧
    checkBinding model (.fileSrc "gltf") = false ∧
    checkBinding epw (.fileSrc "epw") = true ∧
    checkBinding model (.fileSrc "hbjson") = true ∧
    (∀ e : String, checkBinding epw (.fileSrc e) = true ↔ e = "epw") ∧
    (∀ e : String, checkBinding model (.fileSrc e) = true ↔
      e ∈ ["json", "hbjson", "pkl", "hbpkl", "zip"]) := by
  refine ⟨by decide, by decide, by decide, by decide, by decide, by decide,
    ?_, ?_⟩
  · intro e
    show (["epw"].contains e) = true ↔ e = "epw"
    simp [List.contains]
  · intro e
    show (["json", "hbjson", "pkl", "hbpkl", "zip"].contains e) = true ↔
      e ∈ ["json", "hbjson", "pkl", "hbpkl", "zip"]
    simp [List.contains]

/-- Witness for C8 at concrete extensions. -/
theorem extension_validation_witness :
    (checkBinding epw (.fileSrc "txt") = true ↔ "txt" = "epw") ∧
    (checkBinding model (.fileSrc "gltf") = true ↔
      "gltf" ∈ ["json", "hbjson", "pkl", "hbpkl", "zip"]) :=
  ⟨extension_validation.2.2.2.2.2.2.1 "txt",
   extension_validation.2.2.2.2.2.2.2 "gltf"⟩

/-- C9: the `sub_paths` entry of `create_vsf_en17037` narrows its
`grid_data` source by path joining — the bound value is the postprocess
node's materialized `en17037` folder joined with `da` — while
`create_vsf_metrics`, declaring no `sub_paths`, binds `grid_data` to the
materialized `metrics` folder unmodified. -/
theorem subpath_narrowing :
    create_vsf_en17037.subPaths = [("grid_data", "da")] ∧
    (matOutputs annual_metrics_en17037_postprocess).find?
      (fun pr => pr.1 == "en17037") = some ("en17037", ["en17037"]) ∧
    bindParam G create_vsf_en17037 "grid_data" =
      some (["en17037"] ++ ["da"]) ∧
    create_vsf_metrics.subPaths = [] ∧
    (matOutputs annual_metrics_en17037_postprocess).find?
      (fun pr => pr.1 == "metrics") = some ("metrics", ["metrics"]) ∧
    bindParam G create_vsf_metrics "grid_data" = some ["metrics"] := by
  decide

/-- C10: of the eight declared inputs exactly `model` and `epw` carry no
default; binding just those two validates the graph while omitting either
fails validation; a bound `north` is accepted exactly when it lies in
[0, 360] and bound `cpu_count` and `min_sensor_count` values exactly when
they are at least 1. -/
theorem input_defaults_and_ranges :
    G.inputs.length = 8 ∧
    (G.inputs.filter (fun d => d.default.isNone)).map InputDesc.name =
      ["model", "epw"] ∧
    validateBindings G
      [("model", .fileSrc "hbjson"), ("epw", .fileSrc "epw")] = true ∧
    validateBindings G [("epw", .fileSrc "epw")] = false ∧
    validateBindings G [("model", .fileSrc "hbjson")] = false ∧
    (∀ q : ℚ, checkBinding north (.numSrc q) = true ↔ 0 ≤ q ∧ q ≤ 360) ∧
    (∀ n : ℤ, checkBinding cpu_count (.intSrc n) = true ↔ 1 ≤ n) ∧
    (∀ n : ℤ, checkBinding min_sensor_count (.intSrc n) = true ↔ 1 ≤ n) := by
  refine ⟨by decide, by decide, by decide, by decide, by decide, ?_, ?_, ?_⟩
  · intro q
    show (decide ((0 : ℚ) ≤ q) && decide (q ≤ 360)) = true ↔ 0 ≤ q ∧ q ≤ 360
    simp
  · intro n
    show (decide ((1 : ℚ) ≤ (n : ℚ)) && true) = true ↔ 1 ≤ n
    simp
    exact_mod_cast Iff.rfl
  · intro n
    show (decide ((1 : ℚ) ≤ (n : ℚ)) && true) = true ↔ 1 ≤ n
    simp
    exact_mod_cast Iff.rfl

/-- Witness for C10 at concrete bound values. -/
theorem input_defaults_and_ranges_witness :
    (checkBinding north (.numSrc 361) = true ↔
      0 ≤ (361 : ℚ) ∧ (361 : ℚ) ≤ 360) ∧
    (checkBinding cpu_count (.intSrc 0) = true ↔ (1 : ℤ) ≤ 0) ∧
    (checkBinding min_sensor_count (.intSrc 5) = true ↔ (1 : ℤ) ≤ 5) :=
  ⟨input_defaults_and_ranges.2.2.2.2.2.1 361,
   input_defaults_and_ranges.2.2.2.2.2.2.1 0,
   input_defaults_and_ranges.2.2.2.2.2.2.2 5⟩

end AnnualDaylight
